import Mathlib

/-!
Verification development for the kudu-rs RPC client core.

The definitions below are a shallow embedding of the Rust sources:
  * `src/rpc/connection.rs` — the per-endpoint connection state machine
    (framing, SASL negotiation, call multiplexing, send/recv paths);
  * `src/rpc/messenger.rs`  — the `Messenger` sink (`start_send`);
  * `src/util.rs`           — the `retry_with_backoff` combinator.

Protobuf messages are represented by their serialized byte lists; the
generated codec functions (which live outside the translated sources) are
taken as parameters of the definitions that invoke them.  Machine integers
that can only be driven through small ranges by the code (call ids) are
modelled as `Int`; byte values are `Nat`s below 256.
-/

namespace KuduRs

/-- A byte string, as a list of byte values. -/
abbrev Bytes := List Nat

/-- Number of bytes of the protobuf varint encoding of `n`
(`ProtobufVarint::len_varint` in the Rust sources). -/
def lenVarint (n : Nat) : Nat :=
  if n < 128 then 1 else 1 + lenVarint (n / 128)
decreasing_by
  rename_i h
  exact Nat.div_lt_self (by omega) (by omega)

/-- Protobuf varint encoding of `n` (little-endian base-128, continuation bit). -/
def varint (n : Nat) : Bytes :=
  if n < 128 then [n] else (n % 128 + 128) :: varint (n / 128)
decreasing_by
  rename_i h
  exact Nat.div_lt_self (by omega) (by omega)

/-- `Message::write_length_delimited_to`: varint-encoded length followed by the
serialized message bytes. -/
def lengthDelimited (msg : Bytes) : Bytes :=
  varint msg.length ++ msg

/-- Big-endian 4-byte encoding of `n` (`write_u32::<BigEndian>`); the value is
reduced mod 2^32 as the machine write would. -/
def u32be (n : Nat) : Bytes :=
  [n % 2 ^ 32 / 2 ^ 24, n % 2 ^ 24 / 2 ^ 16, n % 2 ^ 16 / 2 ^ 8, n % 2 ^ 8]

/-- `BigEndian::read_u32` over the first four bytes of a buffer. -/
def readU32BE (b : Bytes) : Nat :=
  b.getD 0 0 * 2 ^ 24 + b.getD 1 0 * 2 ^ 16 + b.getD 2 0 * 2 ^ 8 + b.getD 3 0

/-- `Connection::send_message`: appends to the send buffer a big-endian u32
total length (header plus payload, each with its varint length delimiter),
then the length-delimited request header, then the length-delimited payload.
`hdr` and `msg` are the serialized request header and payload message. -/
def sendMessage (sendBuf : Bytes) (hdr msg : Bytes) : Bytes :=
  let len := hdr.length + lenVarint hdr.length + msg.length + lenVarint msg.length
  sendBuf ++ u32be len ++ lengthDelimited hdr ++ lengthDelimited msg

/-- `Connection::send_connection_header`: the fixed 7-byte KRPC preamble
`b"hrpc\x09\0\0"`. -/
def connectionHeader : Bytes := [0x68, 0x72, 0x70, 0x63, 0x09, 0x00, 0x00]

/-! ### SASL negotiation messages and `handle_sasl_message` -/

/-- `SaslMessagePB_SaslState` values that the client inspects. -/
inductive SaslState where
  | UNKNOWN
  | SUCCESS
  | NEGOTIATE
  | INITIATE
  deriving DecidableEq, Repr

/-- The fields of `SaslMessagePB` the client reads: the state and the offered
mechanism names (`get_auths().get_mechanism()`). -/
structure SaslMessage where
  state : SaslState
  auths : List String
  deriving DecidableEq, Repr

/-- `ConnectionState` in `connection.rs`. -/
inductive ConnectionState where
  | Initiating
  | Connected
  deriving DecidableEq, Repr

/-- Call id used for every SASL negotiation message
(`send_sasl_negotiate`, `send_sasl_initiate` both `set_call_id(-33)`). -/
def saslCallId : Int := -33

/-- Call id used for the connection-context message
(`send_connection_context` does `set_call_id(-3)`). -/
def connectionContextCallId : Int := -3

/-- Call id stored into the request header on SASL SUCCESS, so that the first
user request increments it to 0 (`set_call_id(-1)` in `handle_sasl_message`). -/
def callIdAfterSuccess : Int := -1

/-! ### Connection state, request/response headers, errors -/

/-- The fields of `rpc::Request` that `connection.rs` reads: the method
coordinates, the request payload bytes, and the partially decoded response
message that `merge_message` merges into.  The single-resolution completion
handle is represented by the resolution events `recv`/teardown emit. -/
structure Request where
  serviceName : String
  methodName : String
  requiredFeatureFlags : List Nat
  requestMessage : Bytes
  responseMessage : Bytes
  deriving DecidableEq, Repr

/-- The fields of `rpc_header::RequestHeader` that the connection sets. -/
structure RequestHeader where
  callId : Int
  serviceName : String
  methodName : String
  timeoutMillis : Nat
  requiredFeatureFlags : List Nat
  deriving DecidableEq, Repr

/-- The fields of `rpc_header::ResponseHeader` that `recv` reads. -/
structure ResponseHeader where
  callId : Int
  isError : Bool
  sidecarOffsets : List Nat
  deriving DecidableEq, Repr

/-- `RpcError` (declared in `rpc/mod.rs`, outside the translated sources):
either an error parsed from an `ErrorStatusPB` response carrying its
fatal/non-fatal classification, a payload decode failure
(SerializationError), or a connection-level failure. -/
inductive RpcError where
  | remote (fatal : Bool) (status : Bytes)
  | serialization
  | connection
  deriving DecidableEq, Repr

/-- `RpcError::is_fatal` for errors parsed from responses: the classification
carried by the `remote` constructor. -/
def RpcError.isFatal : RpcError → Bool
  | RpcError.remote fatal _ => fatal
  | RpcError.serialization => false
  | RpcError.connection => false

/-- The in-flight table `recv_queue: HashMap<i32, Request>` as an association
list with unique keys. -/
abbrev CallTable := List (Int × Request)

/-- `HashMap::get`-style lookup by call id. -/
def lookupCall : CallTable → Int → Option Request
  | [], _ => none
  | (k, r) :: t, id => if k = id then some r else lookupCall t id

/-- `HashMap::remove`: drops the entry with the given call id, if present. -/
def removeCall (q : CallTable) (id : Int) : CallTable :=
  q.filter (fun p => decide (p.1 ≠ id))

/-- `HashMap::insert`: stores the entry for the call id, replacing any
previous entry with the same id. -/
def insertCall (q : CallTable) (id : Int) (r : Request) : CallTable :=
  (id, r) :: removeCall q id

/-- The `Connection` fields the state machine manipulates.  `written` is the
trace of bytes the flushes have pushed onto the TCP stream (the stream is
modelled as accepting every write, i.e. the schedule with no `WouldBlock`). -/
structure ConnState where
  state : ConnectionState
  sendQueue : List Request
  recvQueue : CallTable
  headerCallId : Int
  recvBuf : Bytes
  sendBuf : Bytes
  written : Bytes
  deriving DecidableEq, Repr

/-- `Connection::flush`: writes the whole send buffer to the socket (the
no-`WouldBlock` schedule); the number of bytes it reports is the buffer
length. -/
def flush (s : ConnState) : ConnState :=
  { s with written := s.written ++ s.sendBuf, sendBuf := [] }

/-- The request header built for a user call in `Connection::send`:
the next call id, the request's method coordinates, the fixed 10000 ms
timeout, and the request's required feature flags. -/
def requestHeaderFor (id : Int) (r : Request) : RequestHeader :=
  { callId := id, serviceName := r.serviceName, methodName := r.methodName,
    timeoutMillis := 10000, requiredFeatureFlags := r.requiredFeatureFlags }

/-- The generated protobuf codecs (from the `kudu-pb` crate and
`protobuf`/`rpc/mod.rs`, outside the translated sources), taken as
parameters.  `decodeResponseHeader` returns the decoded header and the
number of bytes `CodedInputStream::pos()` reports consumed;
`mergePayload buf target` merges the length-delimited payload at the front
of `buf` into the partially decoded `target`, `none` modelling a protobuf
decode failure; the three frames are the serialized SASL INITIATE,
connection-context and SASL NEGOTIATE messages with their headers. -/
structure Codecs where
  encodeRequestHeader : RequestHeader → Bytes
  decodeResponseHeader : Bytes → ResponseHeader × Nat
  decodeErrorStatus : Bytes → RpcError
  decodeSaslMessage : Bytes → Option SaslMessage
  mergePayload : Bytes → Bytes → Option Bytes
  initiateFrame : Bytes
  contextFrame : Bytes

/-! ### The send path: `Connection::send`, `Connection::send_request` -/

/-- Two's-complement wrap of an integer into the `i32` range
`[-2^31, 2^31)`.  The call id lives in an `i32` field
(`rpc_header::RequestHeader::call_id`, `recv_queue: HashMap<i32, Request>`),
so the increment `get_call_id() + 1` in `Connection::send` wraps here at
`i32::MAX` as a release build does (a debug build would panic at the
overflow instead). -/
def i32wrap (n : Int) : Int :=
  (n + 2 ^ 31) % 2 ^ 32 - 2 ^ 31

/-- One step of the inner loop of `Connection::send`: pop the front request
`r` (leaving `rest` queued), assign it the next call id
(`get_call_id() + 1` on the `i32` header field, hence wrapping), frame it
behind the rebuilt request header, and move it into the in-flight table. -/
def sendStep (c : Codecs) (s : ConnState) (r : Request) (rest : List Request) : ConnState :=
  { s with
    sendQueue := rest,
    headerCallId := i32wrap (s.headerCallId + 1),
    recvQueue := insertCall s.recvQueue (i32wrap (s.headerCallId + 1)) r,
    sendBuf := sendMessage s.sendBuf
      (c.encodeRequestHeader (requestHeaderFor (i32wrap (s.headerCallId + 1)) r))
      r.requestMessage }

/-- The inner loop of `Connection::send`: while the send buffer is below
4096 bytes and requests remain queued, run `sendStep` on the front request.
Returns the updated state and the call ids assigned, in send order.  The
recursion runs over the send queue, passed as the first list argument
(callers pass `s.sendQueue`, and the field is kept in sync). -/
def sendLoop (c : Codecs) : List Request → ConnState → ConnState × List Int
  | [], s => (s, [])
  | r :: rest, s =>
    if s.sendBuf.length < 4096 then
      ((sendLoop c rest (sendStep c s r rest)).1,
        i32wrap (s.headerCallId + 1) :: (sendLoop c rest (sendStep c s r rest)).2)
    else (s, [])

/-- `Connection::send`: if both the send buffer and the send queue are
non-empty, run the inner framing loop and flush.  Under the all-accepting
stream the flush empties the buffer, so the outer `while` performs at most
this one iteration (its re-checked condition `!send_buf.is_empty()` then
fails; the `flush() == 0` break never fires because the buffer was
non-empty).  Returns the state and the assigned call ids. -/
def send (c : Codecs) (s : ConnState) : ConnState × List Int :=
  if ¬ s.sendBuf.isEmpty ∧ ¬ s.sendQueue.isEmpty then
    (flush (sendLoop c s.sendQueue s).1, (sendLoop c s.sendQueue s).2)
  else (s, [])

/-- `Connection::send_request`: push the request on the send queue; if the
connection is Connected, the send buffer is empty and the queue now holds
exactly this request, call `send`. -/
def sendRequest (c : Codecs) (s : ConnState) (r : Request) : ConnState × List Int :=
  let s' : ConnState := { s with sendQueue := s.sendQueue ++ [r] }
  if s'.state = ConnectionState.Connected ∧ s'.sendBuf.isEmpty ∧ s'.sendQueue.length = 1 then
    send c s'
  else (s', [])

/-! ### `Connection::handle_sasl_message` -/

/-- `Connection::handle_sasl_message`.  On NEGOTIATE with PLAIN among the
offered mechanisms: sends SASL INITIATE (call id -33) and flushes.  On
NEGOTIATE without PLAIN: the code invokes the panic macro — the
`Except.error` carries the panic message.  On SUCCESS: sends the
connection-context message (call id -3), transitions to Connected, stores
call id -1 so the next user call increments it to 0, and calls `send`.
Any other SASL state also panics. -/
def handleSaslConn (c : Codecs) (s : ConnState) (msg : SaslMessage) : Except String ConnState :=
  match msg.state with
  | SaslState.NEGOTIATE =>
    if msg.auths.any (fun a => a == "PLAIN") then
      Except.ok (flush { s with headerCallId := saslCallId,
                                sendBuf := s.sendBuf ++ c.initiateFrame })
    else Except.error "SASL PLAIN authentication not available"
  | SaslState.SUCCESS =>
    let s1 : ConnState := { s with headerCallId := connectionContextCallId,
                                   sendBuf := s.sendBuf ++ c.contextFrame }
    let s2 : ConnState := { s1 with state := ConnectionState.Connected,
                                    headerCallId := callIdAfterSuccess }
    Except.ok (send c s2).1
  | _ => Except.error "Unexpected SASL message"

/-- `Connection::new`: fresh Initiating state; `send_connection_header`
appends the 7-byte preamble, `send_sasl_negotiate` frames the NEGOTIATE
message (call id -33) behind it, and `flush` pushes both to the stream.
`negotiateHdr`/`negotiateMsg` are the serialized request header and
NEGOTIATE payload. -/
def connectionNew (negotiateHdr negotiateMsg : Bytes) : ConnState :=
  let s0 : ConnState :=
    { state := ConnectionState.Initiating, sendQueue := [], recvQueue := [],
      headerCallId := 0, recvBuf := [], sendBuf := [], written := [] }
  let s1 : ConnState := { s0 with sendBuf := s0.sendBuf ++ connectionHeader }
  let s2 : ConnState := { s1 with headerCallId := saslCallId,
                                  sendBuf := sendMessage s1.sendBuf negotiateHdr negotiateMsg }
  flush s2

/-! ### The receive path: `Connection::recv` -/

/-- A resolution of a pending call's completion handle:
`complete.complete(Response)` or `complete.fail(error)`. -/
inductive Event where
  | completed (callId : Int) (request : Request) (response : Bytes)
  | failed (callId : Int) (error : RpcError)
  deriving DecidableEq, Repr

/-- How one call to `Connection::recv` returns: `Ok(())`, `Err(e)` (the
caller is then supposed to react, the connection's own processing stops), or
a Rust panic aborting the thread. -/
inductive RecvOutcome where
  | ok
  | err (e : RpcError)
  | panicked (msg : String)
  deriving DecidableEq, Repr

/-- Result of processing one fully buffered frame: stop `recv` with an
outcome, or fall through to the trailing `consume(msg_len - header_len)`
and the next loop iteration. -/
inductive StepRes where
  | stop (out : RecvOutcome) (s : ConnState) (evs : List Event)
  | next (s : ConnState) (evs : List Event)

/-- The `match self.state` body of one `recv` loop iteration, entered with
`s.recvBuf` holding the bytes after the length prefix and response header
(the decoders receive the whole remaining buffer, as in the source).

Initiating: an error-flagged response parses an `ErrorStatusPB` and returns
`Err`; otherwise the SASL message is parsed (a parse failure is an `Err`
through `try!`) and handed to `handle_sasl_message`, whose `RpcResult` the
source drops (only a panic escapes).

Connected: an error-flagged response parses the error, removes the matching
in-flight entry and fails it if present, and returns `Err` when the error is
fatal.  A non-error response is merged into the matching entry's response
message — a decode failure returns `Err` through `try!` with the entry left
in the table; on success the entry is removed, a non-empty sidecar list
panics, and otherwise the call completes. -/
def processFrame (c : Codecs) (hdr : ResponseHeader) (s : ConnState) : StepRes :=
  match s.state with
  | ConnectionState.Initiating =>
    if hdr.isError then
      StepRes.stop (RecvOutcome.err (c.decodeErrorStatus s.recvBuf)) s []
    else
      match c.decodeSaslMessage s.recvBuf with
      | none => StepRes.stop (RecvOutcome.err RpcError.serialization) s []
      | some m =>
        match handleSaslConn c s m with
        | Except.error p => StepRes.stop (RecvOutcome.panicked p) s []
        | Except.ok s' => StepRes.next s' []
  | ConnectionState.Connected =>
    if hdr.isError then
      let error := c.decodeErrorStatus s.recvBuf
      let found := lookupCall s.recvQueue hdr.callId
      let s' : ConnState := { s with recvQueue := removeCall s.recvQueue hdr.callId }
      let evs := match found with
        | some _ => [Event.failed hdr.callId error]
        | none => []
      if error.isFatal then StepRes.stop (RecvOutcome.err error) s' evs
      else StepRes.next s' evs
    else
      match lookupCall s.recvQueue hdr.callId with
      | some req =>
        match c.mergePayload s.recvBuf req.responseMessage with
        | none => StepRes.stop (RecvOutcome.err RpcError.serialization) s []
        | some resp =>
          let s' : ConnState := { s with recvQueue := removeCall s.recvQueue hdr.callId }
          if hdr.sidecarOffsets ≠ [] then
            StepRes.stop (RecvOutcome.panicked "sidecar decoding not implemented") s' []
          else
            StepRes.next s' [Event.completed hdr.callId req resp]
      | none => StepRes.next s []

/-- The loop of `Connection::recv`.  `avail` is what the socket currently
has to offer; `Connection::read` drains it into the receive buffer (the
while-loop in `read` keeps reading until `WouldBlock`, so one read moves all
currently available bytes).  Per iteration: top up to 4 bytes and return
`Ok` retaining the partial prefix if the socket ran dry; read the big-endian
length; top up to the full frame and return `Ok` retaining the partial frame
if the socket ran dry; only then consume the prefix, decode the response
header, process the frame, consume the payload, and iterate.  The fuel is
only a termination device; `recv` supplies more than the bytes available.  -/
def recvLoop (c : Codecs) : Nat → ConnState → Bytes → RecvOutcome × ConnState × List Event
  | 0, s, _ => (RecvOutcome.ok, s, [])
  | fuel + 1, s0, avail0 =>
    if s0.recvBuf.length < 4 ∧ avail0.length < 4 - s0.recvBuf.length then
      (RecvOutcome.ok, { s0 with recvBuf := s0.recvBuf ++ avail0 }, [])
    else
      let s1 : ConnState :=
        if s0.recvBuf.length < 4 then { s0 with recvBuf := s0.recvBuf ++ avail0 } else s0
      let avail1 : Bytes := if s0.recvBuf.length < 4 then [] else avail0
      let msgLen := readU32BE s1.recvBuf
      if s1.recvBuf.length - 4 < msgLen ∧ avail1.length < msgLen + 4 - s1.recvBuf.length then
        (RecvOutcome.ok, { s1 with recvBuf := s1.recvBuf ++ avail1 }, [])
      else
        let s2 : ConnState :=
          if s1.recvBuf.length - 4 < msgLen then { s1 with recvBuf := s1.recvBuf ++ avail1 } else s1
        let avail2 : Bytes := if s1.recvBuf.length - 4 < msgLen then [] else avail1
        let s3 : ConnState := { s2 with recvBuf := s2.recvBuf.drop 4 }
        let hdr := (c.decodeResponseHeader s3.recvBuf).1
        let headerLen := (c.decodeResponseHeader s3.recvBuf).2
        let s4 : ConnState := { s3 with recvBuf := s3.recvBuf.drop headerLen }
        match processFrame c hdr s4 with
        | StepRes.stop out s5 evs => (out, s5, evs)
        | StepRes.next s5 evs =>
          let s6 : ConnState := { s5 with recvBuf := s5.recvBuf.drop (msgLen - headerLen) }
          let rest := recvLoop c fuel s6 avail2
          (rest.1, rest.2.1, evs ++ rest.2.2)

/-- `Connection::recv`: run the loop with ample fuel (each iteration that
does not return consumes at least 4 buffered bytes, so the byte count plus
one always suffices). -/
def recv (c : Codecs) (s : ConnState) (avail : Bytes) : RecvOutcome × ConnState × List Event :=
  recvLoop c (s.recvBuf.length + avail.length + 1) s avail

/-! ### Modelled handler reactions (code outside `src/`) -/

/-- Modelled from the spec: the reaction of the messenger's event handler to
an error returned by `Connection::recv` is not among the translated sources
(the checked-in `messenger.rs` is a later rewrite without it).  Per the
spec's propagation policy, a SerializationError on an in-flight call does
not tear the connection down (the call stays pending), while
connection-level failures and fatal remote errors do. -/
def handlerTearsDownConnection : RpcError → Bool
  | RpcError.remote fatal _ => fatal
  | RpcError.serialization => false
  | RpcError.connection => true

/-- Modelled from the spec: tearing down a connection resolves every call
still queued or in flight on it with a connection-error failure, exactly
once each. -/
def tearDownResolutions (s : ConnState) : List (Request × RpcError) :=
  s.recvQueue.map (fun p => (p.2, RpcError.connection)) ++
    s.sendQueue.map (fun r => (r, RpcError.connection))

/-! ### `Messenger::start_send` -/

/-- The sending half of the bounded `futures::sync::mpsc` channel into a
connection's reactor task: whether the receiver has been dropped (the
connection is gone) and whether the channel is at capacity. -/
structure MpscSender where
  receiverDropped : Bool
  full : Bool
  deriving DecidableEq, Repr

/-- The fields of `rpc::Rpc` that `Messenger::start_send` touches: the
target address and the response buffer it clears. -/
structure Rpc where
  addr : Nat
  response : Bytes
  deriving DecidableEq, Repr

/-- `mpsc::Sender::start_send`: an error if the receiver is gone, otherwise
`AsyncSink::NotReady(item)` under backpressure or `AsyncSink::Ready`. -/
def mpscStartSend (ch : MpscSender) (rpc : Rpc) : Except Unit (Option Rpc) :=
  if ch.receiverDropped then Except.error ()
  else if ch.full then Except.ok (some rpc) else Except.ok none

/-- How `Messenger::start_send` returns to its caller: the sink accepted the
rpc, pushed back (`AsyncSink::NotReady`), or the thread panicked. -/
inductive SinkOutcome where
  | ready
  | notReady (rpc : Rpc)
  | panicked (msg : String)
  deriving DecidableEq, Repr

/-- The messenger's connection registry: address → channel sender. -/
abbrev ChanMap := List (Nat × MpscSender)

/-- Registry lookup by address. -/
def lookupChan : ChanMap → Nat → Option MpscSender
  | [], _ => none
  | (a, ch) :: t, addr => if a = addr then some ch else lookupChan t addr

/-- `Messenger::start_send`: clear the rpc's response buffer, look up or
lazily create the connection's channel for the rpc's address (a fresh
channel has a live receiver and free capacity), and forward through
`mpsc::Sender::start_send`; a send error is mapped through a closure that
invokes the panic macro with "connection dropped". -/
def messengerStartSend (m : ChanMap) (rpc : Rpc) : SinkOutcome × ChanMap :=
  let rpc' : Rpc := { rpc with response := [] }
  let fresh : MpscSender := { receiverDropped := false, full := false }
  let ch := match lookupChan m rpc'.addr with
    | some ch => ch
    | none => fresh
  let m' := match lookupChan m rpc'.addr with
    | some _ => m
    | none => (rpc'.addr, fresh) :: m
  match mpscStartSend ch rpc' with
  | Except.error _ => (SinkOutcome.panicked "connection dropped", m')
  | Except.ok none => (SinkOutcome.ready, m')
  | Except.ok (some r) => (SinkOutcome.notReady r, m')

/-! ### `retry_with_backoff` (`util.rs`) -/

/-- `RetryCause` passed to the retry function. -/
inductive RetryCause (E : Type) where
  | initial
  | timedOut
  | err (e : E)
  deriving DecidableEq, Repr

/-- The `Try` field of `RetryWithBackoff`: the current attempt's future, a
captured failure, or the transient `None` that `take` swaps in. -/
inductive TryState (F E : Type) where
  | future (f : F)
  | error (e : E)
  | nothing
  deriving DecidableEq, Repr

/-- What polling the current attempt's future yields:
`Ok(Async::Ready(item))`, `Ok(Async::NotReady)`, or `Err(error)`. -/
inductive PollRes (A E : Type) where
  | ready (a : A)
  | notReady
  | failed (e : E)
  deriving DecidableEq, Repr

/-- The result of one iteration of the loop in `RetryWithBackoff::poll`:
the whole future resolves with the operation's item; or it yields
`Async::NotReady` keeping the given `Try` state; or the timer fired, a new
attempt was installed, and the loop continues; `stuck` marks the
`Try::None => unreachable` branch of `take`. -/
inductive LoopStep (A F E : Type) where
  | done (a : A)
  | yield (t : TryState F E)
  | again (t : TryState F E)
  | stuck
  deriving DecidableEq, Repr

/-- One iteration of the loop in `RetryWithBackoff::poll`.  `pollF` is what
polling a given future yields this iteration; `sleepReady` is whether the
backoff timer's sleep is ready; `retry` is the caller's retry function
(the deadline argument is not modelled; only the cause feeds back).  The
current future is polled if there is one (a captured failure polls as
`NotReady`); a `Ready` item resolves the whole future; an `Err` is captured
into the `Try` state.  Then, if the timer fired, `take` extracts the state:
a still-pending future is discarded and `retry` runs with `TimedOut`, a
captured failure runs `retry` with `Err(failure)`; if the timer is pending,
poll returns `NotReady` keeping the state. -/
def retryPollStep {A F E : Type} (pollF : F → PollRes A E) (sleepReady : Bool)
    (retry : RetryCause E → F) (t : TryState F E) : LoopStep A F E :=
  let pres : PollRes A E := match t with
    | TryState.future f => pollF f
    | _ => PollRes.notReady
  match pres with
  | PollRes.ready a => LoopStep.done a
  | pres' =>
    let t' : TryState F E := match pres' with
      | PollRes.failed e => TryState.error e
      | _ => t
    if sleepReady then
      match t' with
      | TryState.future _ => LoopStep.again (TryState.future (retry RetryCause.timedOut))
      | TryState.error e => LoopStep.again (TryState.future (retry (RetryCause.err e)))
      | TryState.nothing => LoopStep.stuck
    else LoopStep.yield t'

/-- `retry_with_backoff`: the initial attempt is obtained by invoking the
retry function with cause `Initial`. -/
def retryWithBackoffInit {F E : Type} (retry : RetryCause E → F) : TryState F E :=
  TryState.future (retry RetryCause.initial)

/-! ### Sample inputs used by the concrete instantiations -/

/-- A sample pending call. -/
def sampleRequest : Request :=
  { serviceName := "MasterService", methodName := "Ping",
    requiredFeatureFlags := [], requestMessage := [1, 2], responseMessage := [] }

/-- Sample codecs: empty encodings, a header that parses to call id 0 with no
error flag and no sidecars consuming 0 bytes, a fatal remote error, a
NEGOTIATE reply offering only GSSAPI, and a merge that returns the target. -/
def sampleCodecs : Codecs :=
  { encodeRequestHeader := fun _ => [],
    decodeResponseHeader := fun _ => ({ callId := 0, isError := false, sidecarOffsets := [] }, 0),
    decodeErrorStatus := fun _ => RpcError.remote true [],
    decodeSaslMessage := fun _ => some { state := SaslState.NEGOTIATE, auths := ["GSSAPI"] },
    mergePayload := fun _ t => some t,
    initiateFrame := [],
    contextFrame := [] }

/-- A sample connected connection with one queued and one in-flight call. -/
def sampleConn : ConnState :=
  { state := ConnectionState.Connected,
    sendQueue := [sampleRequest],
    recvQueue := [(0, sampleRequest)],
    headerCallId := 0,
    recvBuf := [],
    sendBuf := [],
    written := [] }

/-- Sample polls for the retry combinator. -/
def pollReady : Nat → PollRes Nat Nat := fun _ => PollRes.ready 7

/-- Sample poll yielding a failure. -/
def pollFail : Nat → PollRes Nat Nat := fun _ => PollRes.failed 5

/-- Sample poll still pending. -/
def pollPending : Nat → PollRes Nat Nat := fun _ => PollRes.notReady

/-- Sample retry function. -/
def retryFun : RetryCause Nat → Nat := fun _ => 0

/-! ## Theorems -/

/-! ### Byte-level lemmas -/

theorem varint_length (n : Nat) : (varint n).length = lenVarint n := by
  induction n using Nat.strong_induction_on with
  | _ n ih =>
    rw [varint, lenVarint]
    by_cases h : n < 128
    · simp [h]
    · have hlt : n / 128 < n :=
        Nat.div_lt_self (Nat.lt_of_lt_of_le (by norm_num) (Nat.le_of_not_lt h)) (by norm_num)
      simp [h, List.length_cons, ih _ hlt, Nat.add_comm]

theorem lengthDelimited_length (msg : Bytes) :
    (lengthDelimited msg).length = lenVarint msg.length + msg.length := by
  simp [lengthDelimited, varint_length]

theorem u32be_length (n : Nat) : (u32be n).length = 4 := rfl

theorem connectionHeader_length : connectionHeader.length = 7 := rfl

theorem readU32BE_u32be_append (n : Nat) (rest : Bytes) (h : n < 2 ^ 32) :
    readU32BE (u32be n ++ rest) = n := by
  simp only [u32be, readU32BE, List.cons_append, List.nil_append,
    List.getD_cons_zero, List.getD_cons_succ]
  omega

theorem readU32BE_append_left (b rest : Bytes) (h : 4 ≤ b.length) :
    readU32BE (b ++ rest) = readU32BE b := by
  unfold readU32BE
  rw [List.getD_append, List.getD_append, List.getD_append, List.getD_append] <;> omega

/-! ### In-flight table lemmas -/

theorem removeCall_cons (k : Int) (r : Request) (t : CallTable) (id : Int) :
    removeCall ((k, r) :: t) id =
      if k = id then removeCall t id else (k, r) :: removeCall t id := by
  by_cases h : k = id <;> simp [removeCall, List.filter_cons, h]

theorem lookupCall_removeCall_self (q : CallTable) (id : Int) :
    lookupCall (removeCall q id) id = none := by
  induction q with
  | nil => rfl
  | cons p t ih =>
    obtain ⟨k, r⟩ := p
    rw [removeCall_cons]
    by_cases hk : k = id
    · simp [hk, ih]
    · simp [lookupCall, hk, ih]

theorem lookupCall_removeCall_ne (q : CallTable) (id id' : Int) (h : id' ≠ id) :
    lookupCall (removeCall q id) id' = lookupCall q id' := by
  induction q with
  | nil => rfl
  | cons p t ih =>
    obtain ⟨k, r⟩ := p
    rw [removeCall_cons]
    by_cases hk : k = id
    · rw [if_pos hk, ih]
      have hk' : ¬ k = id' := by omega
      simp [lookupCall, hk']
    · rw [if_neg hk]
      by_cases hk' : k = id'
      · simp [lookupCall, hk']
      · simp [lookupCall, hk', ih]

theorem removeCall_lookup_none (q : CallTable) (id : Int) (h : lookupCall q id = none) :
    removeCall q id = q := by
  induction q with
  | nil => rfl
  | cons p t ih =>
    obtain ⟨k, r⟩ := p
    by_cases hk : k = id
    · simp [lookupCall, hk] at h
    · simp [lookupCall, hk] at h
      rw [removeCall_cons, if_neg hk, ih h]

/-! ### C8: wire framing and connection preamble -/

/-- C8: Every outbound call is framed as a 4-byte big-endian total length
covering a length-delimited request header followed by a length-delimited
payload message (`send_message` appends exactly that and nothing else), and
the fixed 7-byte preamble is written exactly once at connection start:
after `Connection::new` the bytes pushed onto the stream are precisely the
preamble followed by the framed NEGOTIATE message, with the preamble in
front of the negotiation frame and the send buffer drained. -/
theorem C8_wire_framing_and_preamble :
    (∀ buf hdr msg : Bytes,
      sendMessage buf hdr msg =
        buf ++ u32be (lengthDelimited hdr ++ lengthDelimited msg).length ++
          lengthDelimited hdr ++ lengthDelimited msg) ∧
    (∀ negotiateHdr negotiateMsg : Bytes,
      (connectionNew negotiateHdr negotiateMsg).written =
        connectionHeader ++
          u32be (lengthDelimited negotiateHdr ++ lengthDelimited negotiateMsg).length ++
          lengthDelimited negotiateHdr ++ lengthDelimited negotiateMsg ∧
      (connectionNew negotiateHdr negotiateMsg).sendBuf = []) ∧
    connectionHeader.length = 7 := by
  have key : ∀ buf hdr msg : Bytes,
      sendMessage buf hdr msg =
        buf ++ u32be (lengthDelimited hdr ++ lengthDelimited msg).length ++
          lengthDelimited hdr ++ lengthDelimited msg := by
    intro buf hdr msg
    have hl : hdr.length + lenVarint hdr.length + msg.length + lenVarint msg.length
        = (lengthDelimited hdr ++ lengthDelimited msg).length := by
      simp [List.length_append, lengthDelimited_length]
      ring
    simp [sendMessage, hl]
  refine ⟨key, fun nh nm => ?_, rfl⟩
  constructor
  · show ([] : Bytes) ++ sendMessage ([] ++ connectionHeader) nh nm = _
    rw [key]
    simp
  · rfl

/-! ### C10: `send` with an empty send buffer -/

/-- C10: If `Connection::send` runs while the send buffer is empty, the
outer loop guard `!send_buf.is_empty() && !send_queue.is_empty()` fails, so
it serializes and transmits nothing even when the outbound queue is
non-empty; in particular a request enqueued by `send_request` on a connected
connection with an empty send buffer is queued but not written to the
socket by that call. -/
theorem C10_empty_send_buffer_sends_nothing (c : Codecs) (s : ConnState)
    (h : s.sendBuf = []) :
    send c s = (s, []) ∧
    (s.state = ConnectionState.Connected →
      ∀ r : Request,
        sendRequest c s r = ({ s with sendQueue := s.sendQueue ++ [r] }, []) ∧
        (sendRequest c s r).1.written = s.written ∧
        (sendRequest c s r).1.sendBuf = []) := by
  have hsend : ∀ s' : ConnState, s'.sendBuf = [] → send c s' = (s', []) := by
    intro s' h'
    simp [send, h']
  refine ⟨hsend s h, fun _ r => ?_⟩
  have hreq : sendRequest c s r = ({ s with sendQueue := s.sendQueue ++ [r] }, []) := by
    rw [sendRequest]
    split
    · exact hsend _ (by simpa using h)
    · rfl
  refine ⟨hreq, ?_, ?_⟩
  · rw [hreq]
  · rw [hreq]
    exact h

/-- C10 witness: a connected connection with an empty send buffer and a
non-empty outbound queue. -/
theorem C10_witness :
    sampleConn.sendBuf = [] ∧
    send sampleCodecs sampleConn = (sampleConn, []) ∧
    sendRequest sampleCodecs sampleConn sampleRequest =
      ({ sampleConn with sendQueue := sampleConn.sendQueue ++ [sampleRequest] }, []) :=
  ⟨rfl,
   (C10_empty_send_buffer_sends_nothing sampleCodecs sampleConn rfl).1,
   ((C10_empty_send_buffer_sends_nothing sampleCodecs sampleConn rfl).2 rfl sampleRequest).1⟩

/-! ### C4: the three outcomes of a retry attempt -/

/-- C4: One iteration of `RetryWithBackoff::poll` on a live attempt resolves
in exactly one of three ways: a successfully completed operation resolves
the whole loop with that result (whatever the timer says); a failed
operation has its failure captured, and once the timer fires the retry
function is re-invoked with cause `Err(failure)` (immediately if the timer
is already ready, or from the captured state on a later poll); an operation
still pending when the timer fires causes re-invocation with cause
`TimedOut`, the previous attempt's future being discarded.  The
`Try::None => unreachable` branch is never taken from a live attempt. -/
theorem C4_retry_attempt_outcomes {A F E : Type} (pollF : F → PollRes A E)
    (retry : RetryCause E → F) (f : F) :
    (∀ a, pollF f = PollRes.ready a → ∀ b : Bool,
        retryPollStep pollF b retry (TryState.future f) = LoopStep.done a) ∧
    (∀ e, pollF f = PollRes.failed e →
        retryPollStep pollF false retry (TryState.future f)
          = LoopStep.yield (TryState.error e) ∧
        retryPollStep pollF true retry (TryState.future f)
          = LoopStep.again (TryState.future (retry (RetryCause.err e))) ∧
        ∀ pollF' : F → PollRes A E,
          retryPollStep pollF' true retry (TryState.error e)
            = LoopStep.again (TryState.future (retry (RetryCause.err e)))) ∧
    (pollF f = PollRes.notReady →
        retryPollStep pollF true retry (TryState.future f)
          = LoopStep.again (TryState.future (retry RetryCause.timedOut)) ∧
        retryPollStep pollF false retry (TryState.future f)
          = LoopStep.yield (TryState.future f)) ∧
    (∀ b : Bool, retryPollStep pollF b retry (TryState.future f) ≠ LoopStep.stuck) := by
  refine ⟨fun a ha b => ?_, fun e he => ⟨?_, ?_, fun pollF' => ?_⟩, fun hp => ⟨?_, ?_⟩, fun b => ?_⟩
  · simp [retryPollStep, ha]
  · simp [retryPollStep, he]
  · simp [retryPollStep, he]
  · simp [retryPollStep]
  · simp [retryPollStep, hp]
  · simp [retryPollStep, hp]
  · cases hp : pollF f <;> cases b <;> simp [retryPollStep, hp]

/-- C4 witness: the three outcomes at concrete polls. -/
theorem C4_witness :
    retryPollStep pollReady true retryFun (TryState.future 3) = LoopStep.done 7 ∧
    retryPollStep pollFail false retryFun (TryState.future 3)
      = LoopStep.yield (TryState.error 5) ∧
    retryPollStep pollFail true retryFun (TryState.future 3)
      = LoopStep.again (TryState.future (retryFun (RetryCause.err 5))) ∧
    retryPollStep pollPending true retryFun (TryState.future 3)
      = LoopStep.again (TryState.future (retryFun RetryCause.timedOut)) :=
  ⟨(C4_retry_attempt_outcomes pollReady retryFun 3).1 7 rfl true,
   ((C4_retry_attempt_outcomes pollFail retryFun 3).2.1 5 rfl).1,
   ((C4_retry_attempt_outcomes pollFail retryFun 3).2.1 5 rfl).2.1,
   ((C4_retry_attempt_outcomes pollPending retryFun 3).2.2.1 rfl).1⟩

/-! ### C2: NEGOTIATE without PLAIN -/

/-- C2 counterexample: an Initiating connection with one queued call
receives a NEGOTIATE response offering only GSSAPI.  The claim expects the
connection to fail fatally with the queued calls resolved by a
ConnectionError/ProtocolError; instead `handle_sasl_message` hits its
`panic` macro ("rather than the process aborting" is false): the receive
path ends in a panic, resolves no call, and leaves the queued call queued. -/
theorem C2_counterexample :
    handleSaslConn sampleCodecs
        { sampleConn with state := ConnectionState.Initiating, recvQueue := [] }
        { state := SaslState.NEGOTIATE, auths := ["GSSAPI"] }
      = Except.error "SASL PLAIN authentication not available" ∧
    (recv sampleCodecs
        { sampleConn with state := ConnectionState.Initiating, recvQueue := [] }
        (u32be 0)).1
      = RecvOutcome.panicked "SASL PLAIN authentication not available" ∧
    (recv sampleCodecs
        { sampleConn with state := ConnectionState.Initiating, recvQueue := [] }
        (u32be 0)).2.2 = [] ∧
    (recv sampleCodecs
        { sampleConn with state := ConnectionState.Initiating, recvQueue := [] }
        (u32be 0)).2.1.sendQueue = [sampleRequest] := by
  refine ⟨rfl, ?_, ?_, ?_⟩ <;> rfl

/-- C2 (amended): for every NEGOTIATE response during negotiation whose
offered mechanism set does not contain PLAIN, `handle_sasl_message` invokes
the panic macro with "SASL PLAIN authentication not available" — the
process aborts; no error value is produced, so no queued call is resolved
with a ConnectionError/ProtocolError failure. -/
theorem C2_amended_no_plain_panics (c : Codecs) (s : ConnState) (msg : SaslMessage)
    (h1 : msg.state = SaslState.NEGOTIATE)
    (h2 : msg.auths.any (fun a => a == "PLAIN") = false) :
    handleSaslConn c s msg = Except.error "SASL PLAIN authentication not available" := by
  obtain ⟨st, auths⟩ := msg
  simp only at h1 h2
  subst h1
  simp [handleSaslConn, h2]

/-- C2 witness for the amended claim. -/
theorem C2_witness :
    handleSaslConn sampleCodecs sampleConn
        { state := SaslState.NEGOTIATE, auths := ["GSSAPI", "ANONYMOUS"] }
      = Except.error "SASL PLAIN authentication not available" :=
  C2_amended_no_plain_panics sampleCodecs sampleConn
    { state := SaslState.NEGOTIATE, auths := ["GSSAPI", "ANONYMOUS"] } rfl (by decide)

/-! ### C3: `Messenger::start_send` on an unreachable connection -/

/-- C3 counterexample: the registry holds a channel whose receiver (the
connection task) is gone; `start_send` for that endpoint hits the
`map_err(|_| panic!("connection dropped: ..."))` closure and panics instead
of surfacing a connection error to the caller. -/
theorem C3_counterexample :
    (messengerStartSend [(7, { receiverDropped := true, full := false })]
        { addr := 7, response := [9] }).1
      = SinkOutcome.panicked "connection dropped" := rfl

/-- C3 (amended): for every registry state and rpc, when the rpc's endpoint
maps to a channel whose receiver has been dropped (the connection is gone or
failed), `Messenger::start_send` panics with "connection dropped" rather
than returning a connection error to the caller. -/
theorem C3_amended_dropped_connection_panics (m : ChanMap) (rpc : Rpc) (ch : MpscSender)
    (h1 : lookupChan m rpc.addr = some ch) (h2 : ch.receiverDropped = true) :
    (messengerStartSend m rpc).1 = SinkOutcome.panicked "connection dropped" := by
  simp [messengerStartSend, mpscStartSend, h1, h2]

/-- C3 witness for the amended claim. -/
theorem C3_witness :
    (messengerStartSend [(3, { receiverDropped := true, full := true })]
        { addr := 3, response := [] }).1
      = SinkOutcome.panicked "connection dropped" :=
  C3_amended_dropped_connection_panics
    [(3, { receiverDropped := true, full := true })] { addr := 3, response := [] }
    { receiverDropped := true, full := true } rfl rfl

/-! ### C5: call id assignment -/

theorem i32wrap_range (n : Int) : -2 ^ 31 ≤ i32wrap n ∧ i32wrap n < 2 ^ 31 := by
  have e1 : ((2 : Int) ^ 31) = 2147483648 := by norm_num
  have e2 : ((2 : Int) ^ 32) = 4294967296 := by norm_num
  unfold i32wrap
  rw [e1, e2]
  have h1 := Int.emod_nonneg (n + 2147483648) (by norm_num : (4294967296 : Int) ≠ 0)
  have h2 := Int.emod_lt_of_pos (n + 2147483648) (by norm_num : (0 : Int) < 4294967296)
  omega

theorem i32wrap_eq_self (n : Int) (h1 : -2 ^ 31 ≤ n) (h2 : n < 2 ^ 31) : i32wrap n = n := by
  have e1 : ((2 : Int) ^ 31) = 2147483648 := by norm_num
  have e2 : ((2 : Int) ^ 32) = 4294967296 := by norm_num
  unfold i32wrap
  rw [e1, e2]
  rw [e1] at h1 h2
  omega

theorem i32wrap_wrap_add (a b : Int) : i32wrap (i32wrap a + b) = i32wrap (a + b) := by
  have e1 : ((2 : Int) ^ 31) = 2147483648 := by norm_num
  have e2 : ((2 : Int) ^ 32) = 4294967296 := by norm_num
  unfold i32wrap
  rw [e1, e2]
  omega

theorem sendLoop_length_le (c : Codecs) (queue : List Request) (s : ConnState) :
    (sendLoop c queue s).2.length ≤ queue.length := by
  induction queue generalizing s with
  | nil => simp [sendLoop]
  | cons r rest ih =>
    rw [sendLoop]
    by_cases hb : s.sendBuf.length < 4096
    · rw [if_pos hb]
      simpa using Nat.succ_le_succ (ih (sendStep c s r rest))
    · rw [if_neg hb]
      simp

theorem sendLoop_ids (c : Codecs) (queue : List Request) (s : ConnState)
    (hr : -2 ^ 31 ≤ s.headerCallId ∧ s.headerCallId < 2 ^ 31) :
    (sendLoop c queue s).2 =
      (List.range (sendLoop c queue s).2.length).map
        (fun i : Nat => i32wrap (s.headerCallId + 1 + (i : Int))) ∧
    (sendLoop c queue s).1.headerCallId
      = i32wrap (s.headerCallId + (sendLoop c queue s).2.length) := by
  induction queue generalizing s with
  | nil =>
    refine ⟨by simp [sendLoop], ?_⟩
    simp only [sendLoop, List.length_nil, Nat.cast_zero, Int.add_zero]
    exact (i32wrap_eq_self s.headerCallId hr.1 hr.2).symm
  | cons r rest ih =>
    by_cases hb : s.sendBuf.length < 4096
    · rw [sendLoop, if_pos hb]
      have hstep : (sendStep c s r rest).headerCallId = i32wrap (s.headerCallId + 1) := rfl
      obtain ⟨ih1, ih2⟩ := ih (sendStep c s r rest)
        (by rw [hstep]; exact i32wrap_range (s.headerCallId + 1))
      rw [hstep] at ih1 ih2
      constructor
      · show i32wrap (s.headerCallId + 1) :: (sendLoop c rest (sendStep c s r rest)).2
            = (List.range (i32wrap (s.headerCallId + 1) ::
                (sendLoop c rest (sendStep c s r rest)).2).length).map
                (fun i : Nat => i32wrap (s.headerCallId + 1 + (i : Int)))
        rw [List.length_cons, ih1, List.length_map, List.length_range,
          List.range_succ_eq_map, List.map_cons, List.map_map]
        refine congrArg₂ _ (by simp) ?_
        apply List.map_congr_left
        intro i _
        simp only [Function.comp_apply]
        rw [add_assoc, i32wrap_wrap_add]
        congr 1
        push_cast
        ring
      · show (sendLoop c rest (sendStep c s r rest)).1.headerCallId
            = i32wrap (s.headerCallId + (i32wrap (s.headerCallId + 1) ::
                (sendLoop c rest (sendStep c s r rest)).2).length)
        rw [ih2, List.length_cons, i32wrap_wrap_add]
        congr 1
        push_cast
        ring
    · rw [sendLoop, if_neg hb]
      refine ⟨by simp, ?_⟩
      simp only [List.length_nil, Nat.cast_zero, Int.add_zero]
      exact (i32wrap_eq_self s.headerCallId hr.1 hr.2).symm

/-- C5 counterexample: on the connection state whose request header holds
i32::MAX = 2147483647 — the value the header reaches after the 2^31-th user
request — sending the next queued request assigns the wrapped call id
-2147483648: it does not increase the previous id by one and it is
negative, inside the sentinel space.  Moreover ids recur with period 2^32
(`i32wrap 0 = i32wrap (2^32) = 0`), so a connection whose lifetime spans
more than 2^32 requests assigns id 0 twice: the claim's unbounded no-reuse
and increase-by-exactly-1 fail on the code's `i32` arithmetic. -/
theorem C5_counterexample :
    (sendLoop sampleCodecs [sampleRequest]
        { sampleConn with
          headerCallId := 2147483647,
          sendQueue := [sampleRequest] }).2
      = [-2147483648] ∧
    ((-2147483648 : Int) ≠ 2147483647 + 1) ∧ ((-2147483648 : Int) < 0) ∧
    i32wrap 0 = 0 ∧ i32wrap (2 ^ 32) = 0 :=
  ⟨rfl, by norm_num, by norm_num, by decide, by decide⟩

/-- C5 (amended): protocol-internal handshake messages carry the negative
sentinel call ids -33 (SASL NEGOTIATE/INITIATE) and -3 (connection
context), and after SASL SUCCESS stores -1 into the request header,
`Connection::send` assigns user call ids by the wrapping `i32` increment:
the i-th request sent gets id `i32wrap i`.  As long as at most 2^31
requests have been sent, those ids are exactly 0, 1, 2, …: non-negative,
distinct from both sentinels, and never reused; a later `send` continues
the same wrapped sequence from the point reached (so ids recur only with
period 2^32). -/
theorem C5_user_call_ids (c : Codecs) (s : ConnState)
    (h : s.headerCallId = callIdAfterSuccess) :
    saslCallId = -33 ∧ connectionContextCallId = -3 ∧
    (sendLoop c s.sendQueue s).2 =
      (List.range (sendLoop c s.sendQueue s).2.length).map
        (fun i : Nat => i32wrap ((i : Int))) ∧
    ((sendLoop c s.sendQueue s).2.length ≤ 2 ^ 31 →
      (sendLoop c s.sendQueue s).2 =
        (List.range (sendLoop c s.sendQueue s).2.length).map (fun i : Nat => (i : Int)) ∧
      (∀ id ∈ (sendLoop c s.sendQueue s).2,
        0 ≤ id ∧ id ≠ saslCallId ∧ id ≠ connectionContextCallId) ∧
      ((sendLoop c s.sendQueue s).2).Nodup) ∧
    (∀ queue2 : List Request,
      (sendLoop c queue2 (sendLoop c s.sendQueue s).1).2 =
        (List.range (sendLoop c queue2 (sendLoop c s.sendQueue s).1).2.length).map
          (fun i : Nat =>
            i32wrap (((sendLoop c s.sendQueue s).2.length : Int) + (i : Int)))) := by
  have hr : -2 ^ 31 ≤ s.headerCallId ∧ s.headerCallId < 2 ^ 31 := by
    rw [h]
    constructor <;> norm_num [callIdAfterSuccess]
  obtain ⟨h1, h2⟩ := sendLoop_ids c s.sendQueue s hr
  rw [h] at h1 h2
  have hids : (sendLoop c s.sendQueue s).2 =
      (List.range (sendLoop c s.sendQueue s).2.length).map
        (fun i : Nat => i32wrap ((i : Int))) := by
    rw [h1, List.length_map, List.length_range]
    apply List.map_congr_left
    intro i _
    congr 1
    simp only [callIdAfterSuccess]
    omega
  refine ⟨rfl, rfl, hids, ?_, ?_⟩
  · intro hk
    have e31 : (2 : Nat) ^ 31 = 2147483648 := by norm_num
    have hplain : (sendLoop c s.sendQueue s).2 =
        (List.range (sendLoop c s.sendQueue s).2.length).map (fun i : Nat => (i : Int)) := by
      rw [hids, List.length_map, List.length_range]
      apply List.map_congr_left
      intro i hi
      have hi2 := List.mem_range.mp hi
      apply i32wrap_eq_self
      · have : (0 : Int) ≤ (i : Int) := Int.natCast_nonneg i
        have e31i : ((2 : Int) ^ 31) = 2147483648 := by norm_num
        omega
      · rw [e31] at hk
        have hi31 : i < 2147483648 := by omega
        have e31i : ((2 : Int) ^ 31) = 2147483648 := by norm_num
        omega
    refine ⟨hplain, ?_, ?_⟩
    · intro id hid
      rw [hplain] at hid
      obtain ⟨i, _, rfl⟩ := List.mem_map.mp hid
      have : (0 : Int) ≤ (i : Int) := Int.natCast_nonneg i
      refine ⟨this, ?_, ?_⟩ <;> simp only [saslCallId, connectionContextCallId] <;> omega
    · rw [hplain]
      exact (List.nodup_range _).map (fun a b hab => by exact_mod_cast hab)
  · intro queue2
    obtain ⟨g1, _⟩ := sendLoop_ids c queue2 (sendLoop c s.sendQueue s).1
      (by rw [h2]; exact i32wrap_range _)
    rw [g1, h2, List.length_map, List.length_range]
    apply List.map_congr_left
    intro i _
    rw [add_assoc, i32wrap_wrap_add]
    congr 1
    simp only [callIdAfterSuccess]
    ring

/-- C5 witness for the amended claim: two requests sent from the
post-SUCCESS state get ids 0, 1 — within the pre-wrap regime they are
non-negative, distinct from the sentinels, and not reused. -/
theorem C5_witness :
    ({ sampleConn with
        headerCallId := callIdAfterSuccess,
        sendQueue := [sampleRequest, sampleRequest] } : ConnState).headerCallId
      = callIdAfterSuccess ∧
    (∀ id ∈ (sendLoop sampleCodecs
        ({ sampleConn with
            headerCallId := callIdAfterSuccess,
            sendQueue := [sampleRequest, sampleRequest] } : ConnState).sendQueue
        { sampleConn with
          headerCallId := callIdAfterSuccess,
          sendQueue := [sampleRequest, sampleRequest] }).2,
      0 ≤ id ∧ id ≠ saslCallId ∧ id ≠ connectionContextCallId) ∧
    ((sendLoop sampleCodecs
        ({ sampleConn with
            headerCallId := callIdAfterSuccess,
            sendQueue := [sampleRequest, sampleRequest] } : ConnState).sendQueue
        { sampleConn with
          headerCallId := callIdAfterSuccess,
          sendQueue := [sampleRequest, sampleRequest] }).2).Nodup :=
  ⟨rfl,
   ((C5_user_call_ids sampleCodecs
      { sampleConn with
        headerCallId := callIdAfterSuccess,
        sendQueue := [sampleRequest, sampleRequest] } rfl).2.2.2.1
      (le_trans (sendLoop_length_le _ _ _) (by decide))).2.1,
   ((C5_user_call_ids sampleCodecs
      { sampleConn with
        headerCallId := callIdAfterSuccess,
        sendQueue := [sampleRequest, sampleRequest] } rfl).2.2.2.1
      (le_trans (sendLoop_length_le _ _ _) (by decide))).2.2⟩

/-! ### Receive-path lemmas -/

theorem sendLoop_recvBuf (c : Codecs) (queue : List Request) (s : ConnState) :
    (sendLoop c queue s).1.recvBuf = s.recvBuf := by
  induction queue generalizing s with
  | nil => rfl
  | cons r rest ih =>
    rw [sendLoop]
    by_cases hb : s.sendBuf.length < 4096
    · rw [if_pos hb]
      exact ih (sendStep c s r rest)
    · rw [if_neg hb]

theorem send_recvBuf (c : Codecs) (s : ConnState) :
    (send c s).1.recvBuf = s.recvBuf := by
  rw [send]
  split
  · show (flush (sendLoop c s.sendQueue s).1).recvBuf = s.recvBuf
    rw [flush]
    exact sendLoop_recvBuf c s.sendQueue s
  · rfl

theorem handleSaslConn_recvBuf (c : Codecs) (s : ConnState) (msg : SaslMessage)
    (s' : ConnState) (h : handleSaslConn c s msg = Except.ok s') :
    s'.recvBuf = s.recvBuf := by
  obtain ⟨st, auths⟩ := msg
  cases st with
  | NEGOTIATE =>
    rw [handleSaslConn] at h
    by_cases hp : auths.any (fun a => a == "PLAIN")
    · simp only [hp, if_true] at h
      cases h
      rfl
    · simp [hp] at h
  | SUCCESS =>
    rw [handleSaslConn] at h
    cases h
    exact send_recvBuf c _
  | UNKNOWN => simp [handleSaslConn] at h
  | INITIATE => simp [handleSaslConn] at h

theorem processFrame_next_recvBuf (c : Codecs) (hdr : ResponseHeader) (s : ConnState)
    (s' : ConnState) (evs : List Event) (h : processFrame c hdr s = StepRes.next s' evs) :
    s'.recvBuf = s.recvBuf := by
  rw [processFrame] at h
  split at h
  · -- Initiating
    split at h
    · cases h
    · split at h
      · cases h
      · rename_i m hm
        split at h
        · cases h
        · rename_i s1 hrun
          cases h
          exact handleSaslConn_recvBuf c s m _ hrun
  · -- Connected
    simp only [] at h
    split at h
    · -- error-flagged response
      split at h
      · cases h
      · cases h
        rfl
    · split at h
      · rename_i req hl
        split at h
        · cases h
        · split at h
          · cases h
          · cases h
            rfl
      · cases h
        rfl

theorem u32be_append_drop (n : Nat) (body : Bytes) : (u32be n ++ body).drop 4 = body := rfl

theorem u32be_append_length (n : Nat) (body : Bytes) :
    (u32be n ++ body).length = 4 + body.length := by
  simp [u32be]
  omega

/-- With no bytes available and fewer than 4 buffered, the receive loop
returns immediately. -/
theorem recvLoop_no_more (c : Codecs) (fuel : Nat) (s : ConnState)
    (h : s.recvBuf.length < 4) :
    recvLoop c fuel s [] = (RecvOutcome.ok, s, []) := by
  cases fuel with
  | zero => rfl
  | succ n =>
    rw [recvLoop, if_pos ⟨h, by simp; omega⟩]
    simp

/-- Receiving exactly one complete frame (`u32be mlen ++ body` with
`body.length = mlen`) into an empty receive buffer runs `processFrame` on
the bytes after the header and consumes the whole frame. -/
theorem recv_one_frame (c : Codecs) (s : ConnState) (body : Bytes) (mlen hdrLen : Nat)
    (hdr : ResponseHeader)
    (hbuf : s.recvBuf = []) (hbody : body.length = mlen) (hm : mlen < 2 ^ 32)
    (hdec : c.decodeResponseHeader body = (hdr, hdrLen)) :
    recv c s (u32be mlen ++ body) =
      match processFrame c hdr { s with recvBuf := body.drop hdrLen } with
      | StepRes.stop out s5 evs => (out, s5, evs)
      | StepRes.next s5 evs => (RecvOutcome.ok, { s5 with recvBuf := [] }, evs) := by
  have hread : readU32BE (u32be mlen ++ body) = mlen := readU32BE_u32be_append mlen body hm
  have hb : s.recvBuf.length < 4 := by rw [hbuf]; norm_num
  rw [recv]
  have c1 : ¬ (s.recvBuf.length < 4 ∧
      (u32be mlen ++ body).length < 4 - s.recvBuf.length) := by
    rw [hbuf]
    simp only [List.length_nil, u32be_append_length, Nat.sub_zero]
    omega
  rw [recvLoop, if_neg c1]
  have h04 : (0 : Nat) < 4 := by norm_num
  simp only [hbuf, List.length_nil, List.nil_append, h04, if_true, u32be_append_length,
    hbody, hread, Nat.add_sub_cancel_left, lt_self_iff_false, false_and, if_false, hdec,
    u32be_append_drop, Nat.zero_add]
  rcases hpf : processFrame c hdr { s with recvBuf := body.drop hdrLen } with
    ⟨out, s5, evs⟩ | ⟨s5, evs⟩
  · simp only [hpf]
  · have hs5 := processFrame_next_recvBuf c hdr _ s5 evs hpf
    have hdrop : s5.recvBuf.drop (mlen - hdrLen) = [] := by
      rw [hs5]
      apply List.drop_eq_nil_of_le
      simp [hbody]
    have hlt6 : ({ s5 with recvBuf := s5.recvBuf.drop (mlen - hdrLen) } :
        ConnState).recvBuf.length < 4 := by
      simp [hdrop]
    simp only [hpf]
    rw [recvLoop_no_more c _ _ hlt6]
    simp [hdrop]

/-! ### C9: no parsing before a full frame is buffered -/

/-- C9: for every state of the receive buffer and of the socket, if the
buffered plus newly readable bytes do not yet cover 4 length bytes plus the
frame length those bytes announce, `Connection::recv` returns `Ok` with all
the partial bytes retained unparsed in the receive buffer — no in-flight
call is touched and no event is emitted, whatever the codecs (nothing is
decoded). -/
theorem C9_partial_frames_buffered (c : Codecs) (s : ConnState) (avail : Bytes)
    (h : s.recvBuf.length + avail.length < 4 ∨
         (4 ≤ s.recvBuf.length + avail.length ∧
          s.recvBuf.length + avail.length < 4 + readU32BE (s.recvBuf ++ avail))) :
    recv c s avail = (RecvOutcome.ok, { s with recvBuf := s.recvBuf ++ avail }, []) := by
  rw [recv]
  rcases h with h | ⟨h4, hlt⟩
  · have c1 : s.recvBuf.length < 4 ∧ avail.length < 4 - s.recvBuf.length := by omega
    rw [recvLoop, if_pos c1]
  · by_cases hb : s.recvBuf.length < 4
    · have c1 : ¬ (s.recvBuf.length < 4 ∧ avail.length < 4 - s.recvBuf.length) := by omega
      rw [recvLoop, if_neg c1]
      simp only [hb, if_true]
      have c2 : ({ s with recvBuf := s.recvBuf ++ avail } : ConnState).recvBuf.length - 4
            < readU32BE ({ s with recvBuf := s.recvBuf ++ avail } : ConnState).recvBuf ∧
          ([] : Bytes).length < readU32BE ({ s with recvBuf := s.recvBuf ++ avail } :
              ConnState).recvBuf + 4
            - ({ s with recvBuf := s.recvBuf ++ avail } : ConnState).recvBuf.length := by
        simp only [List.length_append, List.length_nil]
        omega
      rw [if_pos c2]
      simp
    · have c1 : ¬ (s.recvBuf.length < 4 ∧ avail.length < 4 - s.recvBuf.length) := by omega
      rw [recvLoop, if_neg c1]
      simp only [hb, if_false]
      have hr : readU32BE s.recvBuf = readU32BE (s.recvBuf ++ avail) :=
        (readU32BE_append_left s.recvBuf avail (by omega)).symm
      have c2 : s.recvBuf.length - 4 < readU32BE s.recvBuf ∧
          avail.length < readU32BE s.recvBuf + 4 - s.recvBuf.length := by
        rw [hr]
        omega
      rw [if_pos c2]

/-- C9 witness: three buffered bytes and one more readable byte form only a
length prefix announcing a 2-byte frame that never arrives. -/
theorem C9_witness :
    recv sampleCodecs { sampleConn with recvBuf := [0, 0, 0] } [2]
      = (RecvOutcome.ok, { sampleConn with recvBuf := [0, 0, 0, 2] }, []) := by
  have := C9_partial_frames_buffered sampleCodecs
    { sampleConn with recvBuf := [0, 0, 0] } [2] (by right; constructor <;> simp [readU32BE])
  simpa using this

/-! ### C6: responses matched to requests solely by call id -/

/-- C6: an inbound non-error response on a Connected connection is matched
to a pending request solely by the call id in its decoded header.  If no
in-flight entry has that id, the frame is silently dropped: `recv` returns
`Ok`, resolves nothing, and every field except the consumed receive buffer
is unchanged.  If an entry matches, exactly that call completes, it is
removed from the in-flight table, and every other pending call is looked up
unchanged afterwards — whatever the arrival order was, only the header's
call id decides. -/
theorem C6_matched_by_call_id_only (c : Codecs) (s : ConnState) (body : Bytes)
    (mlen hdrLen : Nat) (hdr : ResponseHeader)
    (hstate : s.state = ConnectionState.Connected)
    (hbuf : s.recvBuf = []) (hbody : body.length = mlen) (hm : mlen < 2 ^ 32)
    (hdec : c.decodeResponseHeader body = (hdr, hdrLen))
    (herr : hdr.isError = false) :
    (lookupCall s.recvQueue hdr.callId = none →
      recv c s (u32be mlen ++ body)
        = (RecvOutcome.ok, { s with recvBuf := [] }, [])) ∧
    (∀ req resp, lookupCall s.recvQueue hdr.callId = some req →
      c.mergePayload (body.drop hdrLen) req.responseMessage = some resp →
      hdr.sidecarOffsets = [] →
      recv c s (u32be mlen ++ body)
        = (RecvOutcome.ok,
            { s with recvBuf := [], recvQueue := removeCall s.recvQueue hdr.callId },
            [Event.completed hdr.callId req resp]) ∧
      lookupCall (removeCall s.recvQueue hdr.callId) hdr.callId = none ∧
      (∀ id', id' ≠ hdr.callId →
        lookupCall (removeCall s.recvQueue hdr.callId) id' = lookupCall s.recvQueue id')) := by
  have hframe := recv_one_frame c s body mlen hdrLen hdr hbuf hbody hm hdec
  constructor
  · intro hnone
    have hpf : processFrame c hdr { s with recvBuf := body.drop hdrLen }
        = StepRes.next { s with recvBuf := body.drop hdrLen } [] := by
      rw [processFrame]
      simp [hstate, herr, hnone]
    rw [hframe, hpf]
  · intro req resp hsome hmerge hsc
    have hpf : processFrame c hdr { s with recvBuf := body.drop hdrLen }
        = StepRes.next
            { s with
              recvBuf := body.drop hdrLen,
              recvQueue := removeCall s.recvQueue hdr.callId }
            [Event.completed hdr.callId req resp] := by
      rw [processFrame]
      simp [hstate, herr, hsome, hmerge, hsc]
    refine ⟨?_, lookupCall_removeCall_self _ _,
      fun id' hne => lookupCall_removeCall_ne _ _ _ hne⟩
    rw [hframe, hpf]

/-- C6 witness: with one in-flight call under id 0, a non-error response for
call id 0 completes exactly that call, and the same response against an
empty in-flight table is silently dropped. -/
theorem C6_witness :
    (recv sampleCodecs { sampleConn with recvQueue := [] } (u32be 0)
      = (RecvOutcome.ok, { sampleConn with recvQueue := [], recvBuf := [] }, [])) ∧
    (recv sampleCodecs sampleConn (u32be 0)
      = (RecvOutcome.ok,
          { sampleConn with recvBuf := [], recvQueue := removeCall sampleConn.recvQueue 0 },
          [Event.completed 0 sampleRequest sampleRequest.responseMessage])) :=
  ⟨by
    have := (C6_matched_by_call_id_only sampleCodecs
      { sampleConn with recvQueue := [] } [] 0 0
      { callId := 0, isError := false, sidecarOffsets := [] }
      rfl rfl rfl (by norm_num) rfl rfl).1 rfl
    simpa using this,
   by
    have := ((C6_matched_by_call_id_only sampleCodecs sampleConn [] 0 0
      { callId := 0, isError := false, sidecarOffsets := [] }
      rfl rfl rfl (by norm_num) rfl rfl).2 sampleRequest
        sampleRequest.responseMessage rfl rfl rfl).1
    simpa using this⟩

/-! ### C1: payload decode failure leaves the call pending -/

/-- C1: a successful (non-error-flagged) response whose payload fails to
decode makes `recv` return `Err(SerializationError)` with the matching call
NOT removed from the in-flight table — the call is still found under its id
in the resulting state, so a later resolution can still arrive — and, per
the spec-modelled handler reaction (the mio-era handler is not among the
sources), a SerializationError does not tear the connection down.  No
completion handle is resolved. -/
theorem C1_serialization_error_keeps_call_pending (c : Codecs) (s : ConnState)
    (body : Bytes) (mlen hdrLen : Nat) (hdr : ResponseHeader) (req : Request)
    (hstate : s.state = ConnectionState.Connected)
    (hbuf : s.recvBuf = []) (hbody : body.length = mlen) (hm : mlen < 2 ^ 32)
    (hdec : c.decodeResponseHeader body = (hdr, hdrLen))
    (herr : hdr.isError = false)
    (hsome : lookupCall s.recvQueue hdr.callId = some req)
    (hmerge : c.mergePayload (body.drop hdrLen) req.responseMessage = none) :
    recv c s (u32be mlen ++ body)
      = (RecvOutcome.err RpcError.serialization,
          { s with recvBuf := body.drop hdrLen }, []) ∧
    lookupCall (recv c s (u32be mlen ++ body)).2.1.recvQueue hdr.callId = some req ∧
    handlerTearsDownConnection RpcError.serialization = false := by
  have hframe := recv_one_frame c s body mlen hdrLen hdr hbuf hbody hm hdec
  have hpf : processFrame c hdr { s with recvBuf := body.drop hdrLen }
      = StepRes.stop (RecvOutcome.err RpcError.serialization)
          { s with recvBuf := body.drop hdrLen } [] := by
    rw [processFrame]
    simp [hstate, herr, hsome, hmerge]
  rw [hframe, hpf]
  exact ⟨rfl, hsome, rfl⟩

/-- C1 witness: a decode failure (merge returns none) leaves call 0 pending. -/
theorem C1_witness :
    recv { sampleCodecs with mergePayload := fun _ _ => none } sampleConn (u32be 0)
      = (RecvOutcome.err RpcError.serialization,
          { sampleConn with recvBuf := [] }, []) ∧
    lookupCall (recv { sampleCodecs with mergePayload := fun _ _ => none }
        sampleConn (u32be 0)).2.1.recvQueue 0 = some sampleRequest := by
  have := C1_serialization_error_keeps_call_pending
    { sampleCodecs with mergePayload := fun _ _ => none } sampleConn [] 0 0
    { callId := 0, isError := false, sidecarOffsets := [] } sampleRequest
    rfl rfl rfl (by norm_num) rfl rfl rfl rfl
  exact ⟨by simpa using this.1, this.2.1⟩

/-! ### C7: error-flagged responses -/

/-- C7: an inbound error-flagged response resolves the matching in-flight
call (here: present under the header's call id) with the decoded failure and
removes it from the in-flight table; when the error is classified fatal,
`recv` returns `Err` so the caller tears the connection down — the
spec-modelled handler classifies it as teardown, and the modelled teardown
resolves every remaining queued and in-flight call with a connection-error
failure. -/
theorem C7_error_flagged_response (c : Codecs) (s : ConnState) (body : Bytes)
    (mlen hdrLen : Nat) (hdr : ResponseHeader) (err : RpcError) (req : Request)
    (hstate : s.state = ConnectionState.Connected)
    (hbuf : s.recvBuf = []) (hbody : body.length = mlen) (hm : mlen < 2 ^ 32)
    (hdec : c.decodeResponseHeader body = (hdr, hdrLen))
    (herr : hdr.isError = true)
    (hdecerr : c.decodeErrorStatus (body.drop hdrLen) = err)
    (hsome : lookupCall s.recvQueue hdr.callId = some req) :
    (recv c s (u32be mlen ++ body)).2.2 = [Event.failed hdr.callId err] ∧
    lookupCall (recv c s (u32be mlen ++ body)).2.1.recvQueue hdr.callId = none ∧
    (err.isFatal = true →
      (recv c s (u32be mlen ++ body)).1 = RecvOutcome.err err ∧
      handlerTearsDownConnection err = true ∧
      ∀ pr ∈ tearDownResolutions (recv c s (u32be mlen ++ body)).2.1,
        pr.2 = RpcError.connection) := by
  have hframe := recv_one_frame c s body mlen hdrLen hdr hbuf hbody hm hdec
  have htear : ∀ s' : ConnState, ∀ pr ∈ tearDownResolutions s', pr.2 = RpcError.connection := by
    intro s' pr hpr
    simp only [tearDownResolutions, List.mem_append, List.mem_map] at hpr
    rcases hpr with ⟨x, _, rfl⟩ | ⟨x, _, rfl⟩ <;> rfl
  by_cases hf : err.isFatal = true
  · have hpf : processFrame c hdr { s with recvBuf := body.drop hdrLen }
        = StepRes.stop (RecvOutcome.err err)
            { s with
              recvBuf := body.drop hdrLen,
              recvQueue := removeCall s.recvQueue hdr.callId }
            [Event.failed hdr.callId err] := by
      rw [processFrame]
      simp [hstate, herr, hdecerr, hsome, hf]
    rw [hframe, hpf]
    refine ⟨rfl, lookupCall_removeCall_self _ _, fun _ => ⟨rfl, ?_, htear _⟩⟩
    cases err with
    | remote fatal status =>
      simp only [RpcError.isFatal] at hf
      simp [handlerTearsDownConnection, hf]
    | serialization => simp [RpcError.isFatal] at hf
    | connection => simp [RpcError.isFatal] at hf
  · have hpf : processFrame c hdr { s with recvBuf := body.drop hdrLen }
        = StepRes.next
            { s with
              recvBuf := body.drop hdrLen,
              recvQueue := removeCall s.recvQueue hdr.callId }
            [Event.failed hdr.callId err] := by
      rw [processFrame]
      simp [hstate, herr, hdecerr, hsome, hf]
    rw [hframe, hpf]
    exact ⟨rfl, lookupCall_removeCall_self _ _, fun hft => absurd hft hf⟩

/-- C7 witness: a fatal error-flagged response for in-flight call 0. -/
theorem C7_witness :
    (recv { sampleCodecs with decodeResponseHeader := fun _ =>
        ({ callId := 0, isError := true, sidecarOffsets := [] }, 0) }
      sampleConn (u32be 0)).2.2 = [Event.failed 0 (RpcError.remote true [])] ∧
    (recv { sampleCodecs with decodeResponseHeader := fun _ =>
        ({ callId := 0, isError := true, sidecarOffsets := [] }, 0) }
      sampleConn (u32be 0)).1 = RecvOutcome.err (RpcError.remote true []) := by
  have := C7_error_flagged_response
    { sampleCodecs with decodeResponseHeader := fun _ =>
        ({ callId := 0, isError := true, sidecarOffsets := [] }, 0) }
    sampleConn [] 0 0 { callId := 0, isError := true, sidecarOffsets := [] }
    (RpcError.remote true []) sampleRequest
    rfl rfl rfl (by norm_num) rfl rfl rfl rfl
  exact ⟨this.1, (this.2.2 rfl).1⟩

end KuduRs
